import Mathlib

/-!
Verification of the HTTP relay in `src/index.js` against its specification.

The four Express route handlers are embedded shallowly as pure functions.
Each handler takes a `Request` (the parsed body fields and the optional
multer-stored upload) together with an `Env` describing the world it runs
against: the scratch-file system (`uploads/` directory, modelled as an
association list from path to byte content) and the outcomes the remote
Gemini API would produce for the single upload call and the single
generate call a handler can make.  A handler returns a `HandlerOutcome`:
the one HTTP response it writes, the file system after the `finally`
block ran, and a trace of the remote calls it attempted with their
arguments.  Base64 encoding (`Buffer.toString('base64')`) is embedded
concretely so that the inline-data strategy of the document and audio
routes carries the real encoded payload.
-/

namespace GeminiRelay

/-! ## Content parts (the `@google/genai` content representation) -/

/-- A content part: plain text, inline base64 data with a MIME type, or a
reference to a file previously uploaded to the API's file storage
(`createPartFromUri`). -/
inductive Part where
  | text (s : String)
  | inlineData (data : String) (mimeType : String)
  | fileUri (uri : String) (mimeType : String)
  deriving DecidableEq

/-- A content object: a role together with an ordered list of parts. -/
structure Content where
  role : String
  parts : List Part
  deriving DecidableEq

/-- An item passed to `createUserContent`: the SDK accepts bare strings
(converted to text parts) as well as ready-made part objects. -/
inductive PartInput where
  | str (s : String)
  | part (p : Part)
  deriving DecidableEq

/-- `createUserContent` from `@google/genai`: wraps the items into a single
content with role `user`, converting bare strings to text parts. -/
def createUserContent (items : List PartInput) : Content :=
  { role := "user"
    parts := items.map fun i =>
      match i with
      | .str s => Part.text s
      | .part p => p }

/-! ## Base64 (Node `Buffer.toString('base64')` and its inverse) -/

/-- The standard base64 alphabet, index 0 to 63. -/
def b64chars : List Char :=
  ['A', 'B', 'C', 'D', 'E', 'F', 'G', 'H', 'I', 'J', 'K', 'L', 'M',
   'N', 'O', 'P', 'Q', 'R', 'S', 'T', 'U', 'V', 'W', 'X', 'Y', 'Z',
   'a', 'b', 'c', 'd', 'e', 'f', 'g', 'h', 'i', 'j', 'k', 'l', 'm',
   'n', 'o', 'p', 'q', 'r', 's', 't', 'u', 'v', 'w', 'x', 'y', 'z',
   '0', '1', '2', '3', '4', '5', '6', '7', '8', '9', '+', '/']

/-- The alphabet character for a sextet value. -/
def sextetChar (n : Nat) : Char := b64chars.getD n 'A'

/-- The sextet value of an alphabet character, if any. -/
def sextetVal (ch : Char) : Option Nat := b64chars.findIdx? (fun c => c = ch)

/-- RFC 4648 base64 encoding of a byte sequence (each byte a `Nat < 256`),
as Node's `Buffer.toString('base64')` produces it: three bytes become four
alphabet characters, a trailing group of one or two bytes is padded
with `=`. -/
def b64encode : List Nat → List Char
  | [] => []
  | [b1] => [sextetChar (b1 / 4), sextetChar (b1 % 4 * 16), '=', '=']
  | [b1, b2] => [sextetChar (b1 / 4), sextetChar (b1 % 4 * 16 + b2 / 16),
                 sextetChar (b2 % 16 * 4), '=']
  | b1 :: b2 :: b3 :: rest =>
      sextetChar (b1 / 4) :: sextetChar (b1 % 4 * 16 + b2 / 16) ::
      sextetChar (b2 % 16 * 4 + b3 / 64) :: sextetChar (b3 % 64) ::
      b64encode rest

/-- Base64 decoding: the inverse direction of the inline strategy's
encoding.  Groups of four characters are decoded to three bytes; `=`
padding in the final group yields one or two bytes. -/
def b64decode : List Char → Option (List Nat)
  | [] => some []
  | c1 :: c2 :: c3 :: c4 :: rest =>
    match sextetVal c1, sextetVal c2 with
    | some s1, some s2 =>
      if c3 = '=' then
        if c4 = '=' ∧ rest = [] then some [s1 * 4 + s2 / 16] else none
      else
        match sextetVal c3 with
        | some s3 =>
          if c4 = '=' then
            if rest = [] then some [s1 * 4 + s2 / 16, s2 % 16 * 16 + s3 / 4]
            else none
          else
            match sextetVal c4, b64decode rest with
            | some s4, some tl =>
                some ((s1 * 4 + s2 / 16) :: (s2 % 16 * 16 + s3 / 4) ::
                      (s3 % 4 * 64 + s4) :: tl)
            | _, _ => none
        | none => none
    | _, _ => none
  | _ => none

/-! ## Scratch-file system (`fs` + multer's `uploads/` directory) -/

/-- The scratch-file system: an association list from path to file bytes. -/
abbrev FileSys : Type := List (String × List Nat)

/-- `fs.existsSync` / `fs.readFileSync` lookup: the content stored at a
path, if the file exists. -/
def fsLookup : FileSys → String → Option (List Nat)
  | [], _ => none
  | (q, v) :: rest, p => if q = p then some v else fsLookup rest p

/-- `fs.existsSync`. -/
def fsExistsSync (fs : FileSys) (p : String) : Bool :=
  (fsLookup fs p).isSome

/-- `fs.unlinkSync`: the file system with every entry at the path removed. -/
def fsRemove : FileSys → String → FileSys
  | [], _ => []
  | (q, v) :: rest, p =>
      if q = p then fsRemove rest p else (q, v) :: fsRemove rest p

/-- The `finally` block shared by the three media routes:
`if (req.file && fs.existsSync(req.file.path)) fs.unlinkSync(req.file.path)`.
The existence check makes the deletion idempotent: a missing file is left
alone rather than raising. -/
def cleanupScratch (fs : FileSys) (p : String) : FileSys :=
  if fsExistsSync fs p then fsRemove fs p else fs

/-! ## Requests, remote-call oracles and handler outcomes -/

/-- `req.file` as multer populates it: the scratch path under `uploads/`
and the declared MIME type of the upload. -/
structure ReqFile where
  path : String
  mimetype : String
  deriving DecidableEq

/-- An incoming request: the optional `prompt` body field (`none` when the
field is absent; `some ""` when it is present but empty) and the optional
uploaded file. -/
structure Request where
  prompt : Option String
  file : Option ReqFile
  deriving DecidableEq

/-- The outcome of one remote call: a value, or a raised error carrying
`e.message`. -/
inductive RemoteResult (α : Type) where
  | ok (val : α)
  | err (msg : String)
  deriving DecidableEq

/-- The file handle `genAI.files.upload` returns: an opaque URI and the
confirmed MIME type. -/
structure RemoteFileInfo where
  uri : String
  mimeType : String
  deriving DecidableEq

/-- The result of `genAI.models.generateContent`: `result.text` may be
absent (`undefined`) when the response carries no usable text. -/
structure GenerateResult where
  text : Option String
  deriving DecidableEq

/-- The environment one request runs against: the scratch-file system and
the outcomes the remote API would produce for the (at most one) upload
call and the (at most one) generate call. -/
structure Env where
  fs : FileSys
  uploadResult : RemoteResult RemoteFileInfo
  generateResult : RemoteResult GenerateResult
  deriving DecidableEq

/-- The `contents` argument of `generateContent`: the text route passes the
raw prompt string, the media routes pass a list of content objects. -/
inductive ContentsArg where
  | raw (s : String)
  | list (cs : List Content)
  deriving DecidableEq

/-- One recorded `generateContent` call: the model identifier and the
contents argument. -/
structure GenerateCall where
  model : String
  contents : ContentsArg
  deriving DecidableEq

/-- The body of the JSON response the handler writes: `{ output: ... }`
on success (the value being `result.text`, possibly absent) or
`{ error: <message> }` on failure. -/
inductive Body where
  | output (text : Option String)
  | error (msg : String)
  deriving DecidableEq

/-- The single HTTP response a handler writes. -/
structure Response where
  status : Nat
  body : Body
  deriving DecidableEq

/-- What one handler invocation did: the response it wrote, the file
system after its `finally` block, and the remote calls it attempted.
`uploadCalls` records `(path, mimeType)` pairs passed to
`genAI.files.upload`; `generateCalls` records `generateContent` calls. -/
structure HandlerOutcome where
  response : Response
  fs : FileSys
  uploadCalls : List (String × String)
  generateCalls : List GenerateCall
  deriving DecidableEq

/-! ## The four route handlers -/

/-- The model identifier, fixed per route in the source. -/
def geminiModel : String := "gemini-2.0-flash"

/-- Default prompt of `/generate-from-image`. -/
def imageDefaultPrompt : String := "Jelaskan gambar yang diunggah ini."

/-- Default prompt of `/generate-from-document`. -/
def documentDefaultPrompt : String := "Jelaskan dokumen yang diunggah ini."

/-- Default prompt of `/generate-from-audio`. -/
def audioDefaultPrompt : String := "Jelaskan audio yang diunggah ini."

/-- `POST /generate-text`: rejects an absent or empty prompt with 400
(`!prompt` is true for `undefined` and for the empty string), otherwise
calls `generateContent` with the raw prompt and relays the result. -/
def generateText (req : Request) (env : Env) : HandlerOutcome :=
  match req.prompt with
  | none =>
      { response := { status := 400, body := .error "Prompt diperlukan." }
        fs := env.fs, uploadCalls := [], generateCalls := [] }
  | some p =>
      if p = "" then
        { response := { status := 400, body := .error "Prompt diperlukan." }
          fs := env.fs, uploadCalls := [], generateCalls := [] }
      else
        let call : GenerateCall := { model := geminiModel, contents := .raw p }
        match env.generateResult with
        | .ok r =>
            { response := { status := 200, body := .output r.text }
              fs := env.fs, uploadCalls := [], generateCalls := [call] }
        | .err m =>
            { response := { status := 500, body := .error m }
              fs := env.fs, uploadCalls := [], generateCalls := [call] }

/-- `POST /generate-from-image`: default prompt when the field is absent,
400 when no file is attached, otherwise uploads the scratch file to the
API's file storage, builds `[createUserContent([prompt, partFromUri])]`,
calls `generateContent`, and in a `finally` block deletes the scratch
file if it still exists. -/
def generateFromImage (req : Request) (env : Env) : HandlerOutcome :=
  let prompt := req.prompt.getD imageDefaultPrompt
  match req.file with
  | none =>
      { response := { status := 400, body := .error "File gambar diperlukan." }
        fs := env.fs, uploadCalls := [], generateCalls := [] }
  | some f =>
      match env.uploadResult with
      | .err m =>
          { response := { status := 500, body := .error m }
            fs := cleanupScratch env.fs f.path
            uploadCalls := [(f.path, f.mimetype)], generateCalls := [] }
      | .ok image =>
          let contents :=
            [createUserContent
              [.str prompt, .part (.fileUri image.uri image.mimeType)]]
          let call : GenerateCall :=
            { model := geminiModel, contents := .list contents }
          match env.generateResult with
          | .ok r =>
              { response := { status := 200, body := .output r.text }
                fs := cleanupScratch env.fs f.path
                uploadCalls := [(f.path, f.mimetype)], generateCalls := [call] }
          | .err m =>
              { response := { status := 500, body := .error m }
                fs := cleanupScratch env.fs f.path
                uploadCalls := [(f.path, f.mimetype)], generateCalls := [call] }

/-- `POST /generate-from-document`: default prompt when the field is
absent, 400 when no file is attached, otherwise reads the scratch file
into memory (`readFileSync` raises when it is unreadable, caught as a
500), encodes it as base64 into an inline-data part, calls
`generateContent`, and in a `finally` block deletes the scratch file if
it still exists. -/
def generateFromDocument (req : Request) (env : Env) : HandlerOutcome :=
  let prompt := req.prompt.getD documentDefaultPrompt
  match req.file with
  | none =>
      { response := { status := 400, body := .error "File dokumen diperlukan." }
        fs := env.fs, uploadCalls := [], generateCalls := [] }
  | some f =>
      match fsLookup env.fs f.path with
      | none =>
          let msg := "ENOENT: no such file or directory, open " ++ f.path
          { response := { status := 500, body := .error msg }
            fs := cleanupScratch env.fs f.path
            uploadCalls := [], generateCalls := [] }
      | some buffer =>
          let base64Data : String := ⟨b64encode buffer⟩
          let documentPart : Part := .inlineData base64Data f.mimetype
          let contents := [createUserContent [.str prompt, .part documentPart]]
          let call : GenerateCall :=
            { model := geminiModel, contents := .list contents }
          match env.generateResult with
          | .ok r =>
              { response := { status := 200, body := .output r.text }
                fs := cleanupScratch env.fs f.path
                uploadCalls := [], generateCalls := [call] }
          | .err m =>
              { response := { status := 500, body := .error m }
                fs := cleanupScratch env.fs f.path
                uploadCalls := [], generateCalls := [call] }

/-- `POST /generate-from-audio`: same shape as the document route with the
audio default prompt and error message. -/
def generateFromAudio (req : Request) (env : Env) : HandlerOutcome :=
  let prompt := req.prompt.getD audioDefaultPrompt
  match req.file with
  | none =>
      { response := { status := 400, body := .error "File audio diperlukan." }
        fs := env.fs, uploadCalls := [], generateCalls := [] }
  | some f =>
      match fsLookup env.fs f.path with
      | none =>
          let msg := "ENOENT: no such file or directory, open " ++ f.path
          { response := { status := 500, body := .error msg }
            fs := cleanupScratch env.fs f.path
            uploadCalls := [], generateCalls := [] }
      | some buffer =>
          let base64Audio : String := ⟨b64encode buffer⟩
          let audioPart : Part := .inlineData base64Audio f.mimetype
          let contents := [createUserContent [.str prompt, .part audioPart]]
          let call : GenerateCall :=
            { model := geminiModel, contents := .list contents }
          match env.generateResult with
          | .ok r =>
              { response := { status := 200, body := .output r.text }
                fs := cleanupScratch env.fs f.path
                uploadCalls := [], generateCalls := [call] }
          | .err m =>
              { response := { status := 500, body := .error m }
                fs := cleanupScratch env.fs f.path
                uploadCalls := [], generateCalls := [call] }

/-! ## Helper lemmas -/

/-- Looking up an alphabet character recovers its sextet value. -/
theorem sextetVal_sextetChar {n : Nat} (h : n < 64) :
    sextetVal (sextetChar n) = some n :=
  (by decide : ∀ s : Fin 64, sextetVal (sextetChar s.val) = some s.val) ⟨n, h⟩

/-- An alphabet character is never the padding character. -/
theorem sextetChar_ne_pad {n : Nat} (h : n < 64) : sextetChar n ≠ '=' :=
  (by decide : ∀ s : Fin 64, sextetChar s.val ≠ '=') ⟨n, h⟩

/-- Base64 decoding inverts base64 encoding on byte sequences. -/
theorem b64decode_b64encode :
    ∀ bs : List Nat, (∀ b ∈ bs, b < 256) → b64decode (b64encode bs) = some bs
  | [], _ => rfl
  | [b1], h => by
      have hb1 : b1 < 256 := h b1 (by simp)
      have h1 := sextetVal_sextetChar (n := b1 / 4) (by omega)
      have h2 := sextetVal_sextetChar (n := b1 % 4 * 16) (by omega)
      simp only [b64encode, b64decode, h1, h2, and_self, if_true]
      simp only [Option.some.injEq, List.cons.injEq, and_true]
      omega
  | [b1, b2], h => by
      have hb1 : b1 < 256 := h b1 (by simp)
      have hb2 : b2 < 256 := h b2 (by simp)
      have h1 := sextetVal_sextetChar (n := b1 / 4) (by omega)
      have h2 := sextetVal_sextetChar (n := b1 % 4 * 16 + b2 / 16) (by omega)
      have h3 := sextetVal_sextetChar (n := b2 % 16 * 4) (by omega)
      have hne3 := sextetChar_ne_pad (n := b2 % 16 * 4) (by omega)
      simp only [b64encode, b64decode, h1, h2, h3, if_neg hne3, if_true]
      simp only [Option.some.injEq, List.cons.injEq, and_true]
      omega
  | b1 :: b2 :: b3 :: rest, h => by
      have hb1 : b1 < 256 := h b1 (by simp)
      have hb2 : b2 < 256 := h b2 (by simp)
      have hb3 : b3 < 256 := h b3 (by simp)
      have ih := b64decode_b64encode rest (fun b hb => h b (by simp [hb]))
      have h1 := sextetVal_sextetChar (n := b1 / 4) (by omega)
      have h2 := sextetVal_sextetChar (n := b1 % 4 * 16 + b2 / 16) (by omega)
      have h3 := sextetVal_sextetChar (n := b2 % 16 * 4 + b3 / 64) (by omega)
      have h4 := sextetVal_sextetChar (n := b3 % 64) (by omega)
      have hne3 := sextetChar_ne_pad (n := b2 % 16 * 4 + b3 / 64) (by omega)
      have hne4 := sextetChar_ne_pad (n := b3 % 64) (by omega)
      simp only [b64encode, b64decode, h1, h2, h3, h4, if_neg hne3, if_neg hne4, ih]
      simp only [Option.some.injEq, List.cons.injEq, and_true]
      omega

/-- After removing a path, looking it up finds nothing. -/
theorem fsLookup_fsRemove (l : FileSys) (p : String) :
    fsLookup (fsRemove l p) p = none := by
  induction l with
  | nil => rfl
  | cons e rest ih =>
      obtain ⟨q, v⟩ := e
      by_cases hq : q = p
      · simp [fsRemove, hq, ih]
      · simp [fsRemove, fsLookup, hq, ih]

/-- The `finally`-block cleanup leaves the scratch path nonexistent, whether
or not the file was still there. -/
theorem fsExistsSync_cleanupScratch (fs : FileSys) (p : String) :
    fsExistsSync (cleanupScratch fs p) p = false := by
  unfold cleanupScratch
  cases hb : fsExistsSync fs p
  · simp [hb]
  · simp [fsExistsSync, fsLookup_fsRemove]

/-! ## Claim theorems -/

/-- C1: for every request to a media route in which an uploaded file was
stored as a scratch file, the scratch file no longer exists on disk after
the handler finishes, on every exit path alike (successful generation,
remote-call failure, or local processing failure); the deletion step checks
existence before removal, so a file already missing is not an error. -/
theorem C1_scratch_file_always_deleted (req : Request) (env : Env) (f : ReqFile)
    (h : req.file = some f) :
    fsExistsSync (generateFromImage req env).fs f.path = false ∧
    fsExistsSync (generateFromDocument req env).fs f.path = false ∧
    fsExistsSync (generateFromAudio req env).fs f.path = false := by
  refine ⟨?_, ?_, ?_⟩
  · cases hu : env.uploadResult <;> cases hg : env.generateResult <;>
      simp [generateFromImage, h, hu, hg, fsExistsSync_cleanupScratch]
  · cases hl : fsLookup env.fs f.path <;> cases hg : env.generateResult <;>
      simp [generateFromDocument, h, hl, hg, fsExistsSync_cleanupScratch]
  · cases hl : fsLookup env.fs f.path <;> cases hg : env.generateResult <;>
      simp [generateFromAudio, h, hl, hg, fsExistsSync_cleanupScratch]

/-- C1 witness: a concrete request with a stored scratch file, run against a
concrete environment, leaves the scratch path nonexistent on all three
media routes. -/
theorem C1_scratch_file_always_deleted_witness :
    ({ prompt := some "hai", file := some ⟨"uploads/img", "image/png"⟩ } : Request).file =
        some (⟨"uploads/img", "image/png"⟩ : ReqFile) ∧
    (fsExistsSync (generateFromImage ⟨some "hai", some ⟨"uploads/img", "image/png"⟩⟩
        ⟨[("uploads/img", [1, 2])], .ok ⟨"files/r1", "image/png"⟩,
          .ok ⟨some "teks"⟩⟩).fs "uploads/img" = false ∧
     fsExistsSync (generateFromDocument ⟨some "hai", some ⟨"uploads/img", "image/png"⟩⟩
        ⟨[("uploads/img", [1, 2])], .ok ⟨"files/r1", "image/png"⟩,
          .ok ⟨some "teks"⟩⟩).fs "uploads/img" = false ∧
     fsExistsSync (generateFromAudio ⟨some "hai", some ⟨"uploads/img", "image/png"⟩⟩
        ⟨[("uploads/img", [1, 2])], .ok ⟨"files/r1", "image/png"⟩,
          .ok ⟨some "teks"⟩⟩).fs "uploads/img" = false) :=
  ⟨rfl, C1_scratch_file_always_deleted _ _ ⟨"uploads/img", "image/png"⟩ rfl⟩

/-- C2 counterexample: the claim says a successful remote call whose
response carries no usable text is answered with status 500; on the code a
request to `/generate-text` with a valid prompt, whose generate call
succeeds with `result.text` absent, is answered with status 200 (the
missing text is passed straight through as the output), not 500. -/
theorem C2_counterexample_no_text_success_200 :
    (generateText { prompt := some "Halo", file := none }
        { fs := [], uploadResult := .err "tidak dipakai",
          generateResult := .ok { text := none } }).response.status = 200 ∧
    (generateText { prompt := some "Halo", file := none }
        { fs := [], uploadResult := .err "tidak dipakai",
          generateResult := .ok { text := none } }).response.status ≠ 500 := by
  constructor
  · rfl
  · decide

/-- C2 (amended): for every route, if the remote generate call raises (or,
on the image route, the upload raises), the handler responds with status
500 and body `{ error: <message> }`; if the generate call succeeds the
handler responds 200 with the result's text as the output, even when the
response carries no usable text — the missing text is not converted into
an error. -/
theorem C2_remote_failure_500_amended (req : Request) (env : Env) :
    (∀ p, req.prompt = some p → p ≠ "" →
      (∀ m, env.generateResult = .err m →
        (generateText req env).response = ⟨500, .error m⟩) ∧
      (∀ r, env.generateResult = .ok r →
        (generateText req env).response = ⟨200, .output r.text⟩)) ∧
    (∀ f, req.file = some f →
      (∀ u, env.uploadResult = .ok u →
        (∀ m, env.generateResult = .err m →
          (generateFromImage req env).response = ⟨500, .error m⟩) ∧
        (∀ r, env.generateResult = .ok r →
          (generateFromImage req env).response = ⟨200, .output r.text⟩)) ∧
      (∀ m, env.uploadResult = .err m →
        (generateFromImage req env).response = ⟨500, .error m⟩) ∧
      (∀ buf, fsLookup env.fs f.path = some buf →
        (∀ m, env.generateResult = .err m →
          (generateFromDocument req env).response = ⟨500, .error m⟩ ∧
          (generateFromAudio req env).response = ⟨500, .error m⟩) ∧
        (∀ r, env.generateResult = .ok r →
          (generateFromDocument req env).response = ⟨200, .output r.text⟩ ∧
          (generateFromAudio req env).response = ⟨200, .output r.text⟩))) := by
  constructor
  · intro p hp hpe
    constructor
    · intro m hm
      simp [generateText, hp, hpe, hm]
    · intro r hr
      simp [generateText, hp, hpe, hr]
  · intro f hf
    refine ⟨?_, ?_, ?_⟩
    · intro u hu
      constructor
      · intro m hm
        simp [generateFromImage, hf, hu, hm]
      · intro r hr
        simp [generateFromImage, hf, hu, hr]
    · intro m hm
      simp [generateFromImage, hf, hm]
    · intro buf hb
      constructor
      · intro m hm
        constructor <;> simp [generateFromDocument, generateFromAudio, hf, hb, hm]
      · intro r hr
        constructor <;> simp [generateFromDocument, generateFromAudio, hf, hb, hr]

/-- C2 witness: concrete instances — a text request whose generate call
raises is answered `500 { error }`, and a document request whose generate
call succeeds with no usable text is answered `200` with an absent
output. -/
theorem C2_remote_failure_500_amended_witness :
    (generateText ⟨some "Halo", none⟩
        ⟨[], .err "x", .err "kuota habis"⟩).response = ⟨500, .error "kuota habis"⟩ ∧
    (generateFromDocument ⟨none, some ⟨"uploads/doc", "application/pdf"⟩⟩
        ⟨[("uploads/doc", [1])], .err "x", .ok ⟨none⟩⟩).response = ⟨200, .output none⟩ :=
  ⟨((C2_remote_failure_500_amended ⟨some "Halo", none⟩
        ⟨[], .err "x", .err "kuota habis"⟩).1 "Halo" rfl (by decide)).1 "kuota habis" rfl,
   ((((C2_remote_failure_500_amended ⟨none, some ⟨"uploads/doc", "application/pdf"⟩⟩
        ⟨[("uploads/doc", [1])], .err "x", .ok ⟨none⟩⟩).2
      ⟨"uploads/doc", "application/pdf"⟩ rfl).2.2 [1] (by decide)).2 ⟨none⟩ rfl).1⟩

/-- C3: for every request to `/generate-text` whose prompt field is absent
or the empty string, the response has status 400 with an error field, and
no remote generation call is attempted. -/
theorem C3_missing_prompt_400 (req : Request) (env : Env)
    (h : req.prompt = none ∨ req.prompt = some "") :
    (generateText req env).response.status = 400 ∧
    (∃ m, (generateText req env).response.body = .error m) ∧
    (generateText req env).generateCalls = [] := by
  rcases h with h | h <;> simp [generateText, h]

/-- C3 witness: a concrete promptless request is answered 400 with an error
body and no generate call. -/
theorem C3_missing_prompt_400_witness :
    (generateText ⟨none, none⟩ ⟨[], .err "x", .ok ⟨some "teks"⟩⟩).response.status = 400 ∧
    (∃ m, (generateText ⟨none, none⟩
        ⟨[], .err "x", .ok ⟨some "teks"⟩⟩).response.body = .error m) ∧
    (generateText ⟨none, none⟩ ⟨[], .err "x", .ok ⟨some "teks"⟩⟩).generateCalls = [] :=
  C3_missing_prompt_400 _ _ (Or.inl rfl)

/-- C4: for every request to a media route with no file attached under the
route's field name, the response has status 400 with an error field,
regardless of whether a prompt was supplied, and no remote call (upload or
generate) is attempted. -/
theorem C4_missing_file_400 (req : Request) (env : Env) (h : req.file = none) :
    ((generateFromImage req env).response.status = 400 ∧
     (∃ m, (generateFromImage req env).response.body = .error m) ∧
     (generateFromImage req env).uploadCalls = [] ∧
     (generateFromImage req env).generateCalls = []) ∧
    ((generateFromDocument req env).response.status = 400 ∧
     (∃ m, (generateFromDocument req env).response.body = .error m) ∧
     (generateFromDocument req env).uploadCalls = [] ∧
     (generateFromDocument req env).generateCalls = []) ∧
    ((generateFromAudio req env).response.status = 400 ∧
     (∃ m, (generateFromAudio req env).response.body = .error m) ∧
     (generateFromAudio req env).uploadCalls = [] ∧
     (generateFromAudio req env).generateCalls = []) := by
  refine ⟨?_, ?_, ?_⟩ <;>
    simp [generateFromImage, generateFromDocument, generateFromAudio, h]

/-- C4 witness: a concrete fileless request (with a prompt supplied) is
answered 400 with an error body and no remote calls on all three media
routes. -/
theorem C4_missing_file_400_witness :
    ((generateFromImage ⟨some "hai", none⟩
        ⟨[], .ok ⟨"files/r1", "image/png"⟩, .ok ⟨some "teks"⟩⟩).response.status = 400 ∧
     (∃ m, (generateFromImage ⟨some "hai", none⟩
        ⟨[], .ok ⟨"files/r1", "image/png"⟩, .ok ⟨some "teks"⟩⟩).response.body = .error m) ∧
     (generateFromImage ⟨some "hai", none⟩
        ⟨[], .ok ⟨"files/r1", "image/png"⟩, .ok ⟨some "teks"⟩⟩).uploadCalls = [] ∧
     (generateFromImage ⟨some "hai", none⟩
        ⟨[], .ok ⟨"files/r1", "image/png"⟩, .ok ⟨some "teks"⟩⟩).generateCalls = []) ∧
    ((generateFromDocument ⟨some "hai", none⟩
        ⟨[], .ok ⟨"files/r1", "image/png"⟩, .ok ⟨some "teks"⟩⟩).response.status = 400 ∧
     (∃ m, (generateFromDocument ⟨some "hai", none⟩
        ⟨[], .ok ⟨"files/r1", "image/png"⟩, .ok ⟨some "teks"⟩⟩).response.body = .error m) ∧
     (generateFromDocument ⟨some "hai", none⟩
        ⟨[], .ok ⟨"files/r1", "image/png"⟩, .ok ⟨some "teks"⟩⟩).uploadCalls = [] ∧
     (generateFromDocument ⟨some "hai", none⟩
        ⟨[], .ok ⟨"files/r1", "image/png"⟩, .ok ⟨some "teks"⟩⟩).generateCalls = []) ∧
    ((generateFromAudio ⟨some "hai", none⟩
        ⟨[], .ok ⟨"files/r1", "image/png"⟩, .ok ⟨some "teks"⟩⟩).response.status = 400 ∧
     (∃ m, (generateFromAudio ⟨some "hai", none⟩
        ⟨[], .ok ⟨"files/r1", "image/png"⟩, .ok ⟨some "teks"⟩⟩).response.body = .error m) ∧
     (generateFromAudio ⟨some "hai", none⟩
        ⟨[], .ok ⟨"files/r1", "image/png"⟩, .ok ⟨some "teks"⟩⟩).uploadCalls = [] ∧
     (generateFromAudio ⟨some "hai", none⟩
        ⟨[], .ok ⟨"files/r1", "image/png"⟩, .ok ⟨some "teks"⟩⟩).generateCalls = []) :=
  C4_missing_file_400 _ _ rfl

/-- C5: the content-building strategy is selected by route — the image
route uploads the scratch file (its path and declared MIME type) to the
external API's file storage and wraps the returned URI and MIME type as a
remote-file part, while the document and audio routes perform no upload,
read the scratch file fully into memory, encode it as base64, and wrap it
with the declared MIME type as an inline-data part. -/
theorem C5_strategy_by_route (req : Request) (env : Env) (f : ReqFile)
    (hf : req.file = some f) :
    (∀ u, env.uploadResult = .ok u →
      (generateFromImage req env).uploadCalls = [(f.path, f.mimetype)] ∧
      (generateFromImage req env).generateCalls =
        [⟨geminiModel, .list [createUserContent
          [.str (req.prompt.getD imageDefaultPrompt),
           .part (.fileUri u.uri u.mimeType)]]⟩]) ∧
    (∀ buf, fsLookup env.fs f.path = some buf →
      (generateFromDocument req env).uploadCalls = [] ∧
      (generateFromDocument req env).generateCalls =
        [⟨geminiModel, .list [createUserContent
          [.str (req.prompt.getD documentDefaultPrompt),
           .part (.inlineData ⟨b64encode buf⟩ f.mimetype)]]⟩] ∧
      (generateFromAudio req env).uploadCalls = [] ∧
      (generateFromAudio req env).generateCalls =
        [⟨geminiModel, .list [createUserContent
          [.str (req.prompt.getD audioDefaultPrompt),
           .part (.inlineData ⟨b64encode buf⟩ f.mimetype)]]⟩]) := by
  constructor
  · intro u hu
    cases hg : env.generateResult <;> simp [generateFromImage, hf, hu, hg]
  · intro buf hb
    cases hg : env.generateResult <;>
      simp [generateFromDocument, generateFromAudio, hf, hb, hg]

/-- C5 witness: on a concrete request and environment, the image route
uploads the scratch path and passes a remote-file part, while the document
route performs no upload and passes the base64-encoded bytes inline. -/
theorem C5_strategy_by_route_witness :
    (generateFromImage ⟨none, some ⟨"uploads/img", "image/png"⟩⟩
        ⟨[("uploads/img", [1, 2])], .ok ⟨"files/r1", "image/png"⟩,
          .ok ⟨some "teks"⟩⟩).uploadCalls = [("uploads/img", "image/png")] ∧
    (generateFromImage ⟨none, some ⟨"uploads/img", "image/png"⟩⟩
        ⟨[("uploads/img", [1, 2])], .ok ⟨"files/r1", "image/png"⟩,
          .ok ⟨some "teks"⟩⟩).generateCalls =
      [⟨geminiModel, .list [createUserContent
        [.str imageDefaultPrompt, .part (.fileUri "files/r1" "image/png")]]⟩] ∧
    (generateFromDocument ⟨none, some ⟨"uploads/img", "image/png"⟩⟩
        ⟨[("uploads/img", [1, 2])], .ok ⟨"files/r1", "image/png"⟩,
          .ok ⟨some "teks"⟩⟩).uploadCalls = [] ∧
    (generateFromDocument ⟨none, some ⟨"uploads/img", "image/png"⟩⟩
        ⟨[("uploads/img", [1, 2])], .ok ⟨"files/r1", "image/png"⟩,
          .ok ⟨some "teks"⟩⟩).generateCalls =
      [⟨geminiModel, .list [createUserContent
        [.str documentDefaultPrompt,
         .part (.inlineData ⟨b64encode [1, 2]⟩ "image/png")]]⟩] :=
  ⟨((C5_strategy_by_route _ _ ⟨"uploads/img", "image/png"⟩ rfl).1
      ⟨"files/r1", "image/png"⟩ rfl).1,
   ((C5_strategy_by_route _ _ ⟨"uploads/img", "image/png"⟩ rfl).1
      ⟨"files/r1", "image/png"⟩ rfl).2,
   ((C5_strategy_by_route _ _ ⟨"uploads/img", "image/png"⟩ rfl).2
      [1, 2] (by decide)).1,
   ((C5_strategy_by_route _ _ ⟨"uploads/img", "image/png"⟩ rfl).2
      [1, 2] (by decide)).2.1⟩

/-- C6: for every media-route request that reaches the generation call, the
content passed to the generation client is a single user content whose
ordered part list has the text prompt first and the media part (a
remote-file or inline-data part) second. -/
theorem C6_prompt_first_content_order (req : Request) (env : Env) (call : GenerateCall) :
    ((generateFromImage req env).generateCalls = [call] →
      ∃ mp, ((∃ u mt, mp = Part.fileUri u mt) ∨ (∃ d mt, mp = Part.inlineData d mt)) ∧
        call.contents =
          .list [⟨"user", [Part.text (req.prompt.getD imageDefaultPrompt), mp]⟩]) ∧
    ((generateFromDocument req env).generateCalls = [call] →
      ∃ mp, ((∃ u mt, mp = Part.fileUri u mt) ∨ (∃ d mt, mp = Part.inlineData d mt)) ∧
        call.contents =
          .list [⟨"user", [Part.text (req.prompt.getD documentDefaultPrompt), mp]⟩]) ∧
    ((generateFromAudio req env).generateCalls = [call] →
      ∃ mp, ((∃ u mt, mp = Part.fileUri u mt) ∨ (∃ d mt, mp = Part.inlineData d mt)) ∧
        call.contents =
          .list [⟨"user", [Part.text (req.prompt.getD audioDefaultPrompt), mp]⟩]) := by
  refine ⟨?_, ?_, ?_⟩
  · intro hc
    cases hf : req.file with
    | none => simp [generateFromImage, hf] at hc
    | some f =>
      cases hu : env.uploadResult with
      | err m => simp [generateFromImage, hf, hu] at hc
      | ok u =>
        cases hg : env.generateResult <;>
          simp [generateFromImage, hf, hu, hg] at hc <;>
          · refine ⟨Part.fileUri u.uri u.mimeType, Or.inl ⟨u.uri, u.mimeType, rfl⟩, ?_⟩
            simp [← hc, createUserContent]
  · intro hc
    cases hf : req.file with
    | none => simp [generateFromDocument, hf] at hc
    | some f =>
      cases hl : fsLookup env.fs f.path with
      | none => simp [generateFromDocument, hf, hl] at hc
      | some buf =>
        cases hg : env.generateResult <;>
          simp [generateFromDocument, hf, hl, hg] at hc <;>
          · refine ⟨Part.inlineData ⟨b64encode buf⟩ f.mimetype,
              Or.inr ⟨⟨b64encode buf⟩, f.mimetype, rfl⟩, ?_⟩
            simp [← hc, createUserContent]
  · intro hc
    cases hf : req.file with
    | none => simp [generateFromAudio, hf] at hc
    | some f =>
      cases hl : fsLookup env.fs f.path with
      | none => simp [generateFromAudio, hf, hl] at hc
      | some buf =>
        cases hg : env.generateResult <;>
          simp [generateFromAudio, hf, hl, hg] at hc <;>
          · refine ⟨Part.inlineData ⟨b64encode buf⟩ f.mimetype,
              Or.inr ⟨⟨b64encode buf⟩, f.mimetype, rfl⟩, ?_⟩
            simp [← hc, createUserContent]

/-- C6 witness: on a concrete image-route request that reaches generation,
the recorded contents are a single user content with the prompt text first
and a media part second. -/
theorem C6_prompt_first_content_order_witness :
    ∃ mp, ((∃ u mt, mp = Part.fileUri u mt) ∨ (∃ d mt, mp = Part.inlineData d mt)) ∧
      ContentsArg.list [createUserContent
        [.str imageDefaultPrompt, .part (.fileUri "files/r1" "image/png")]] =
      ContentsArg.list [⟨"user", [Part.text imageDefaultPrompt, mp]⟩] :=
  (C6_prompt_first_content_order ⟨none, some ⟨"uploads/img", "image/png"⟩⟩
      ⟨[("uploads/img", [1, 2])], .ok ⟨"files/r1", "image/png"⟩, .ok ⟨some "teks"⟩⟩
      ⟨geminiModel, .list [createUserContent
        [.str imageDefaultPrompt, .part (.fileUri "files/r1" "image/png")]]⟩).1
    (by decide)

/-- C7: for every media-route request in which the prompt field is absent
but a file is attached, the handler proceeds (it is not rejected with 400)
using that route's documented default prompt string as the text part of any
generation call it makes; the three per-route default strings are fixed and
pairwise distinct. -/
theorem C7_default_prompt_applied (req : Request) (env : Env) (f : ReqFile)
    (hp : req.prompt = none) (hf : req.file = some f) :
    ((generateFromImage req env).response.status ≠ 400 ∧
     ∀ call ∈ (generateFromImage req env).generateCalls,
       ∃ mp, call.contents = .list [⟨"user", [Part.text imageDefaultPrompt, mp]⟩]) ∧
    ((generateFromDocument req env).response.status ≠ 400 ∧
     ∀ call ∈ (generateFromDocument req env).generateCalls,
       ∃ mp, call.contents = .list [⟨"user", [Part.text documentDefaultPrompt, mp]⟩]) ∧
    ((generateFromAudio req env).response.status ≠ 400 ∧
     ∀ call ∈ (generateFromAudio req env).generateCalls,
       ∃ mp, call.contents = .list [⟨"user", [Part.text audioDefaultPrompt, mp]⟩]) ∧
    imageDefaultPrompt ≠ documentDefaultPrompt ∧
    imageDefaultPrompt ≠ audioDefaultPrompt ∧
    documentDefaultPrompt ≠ audioDefaultPrompt := by
  refine ⟨?_, ?_, ?_, by decide, by decide, by decide⟩
  · constructor
    · cases hu : env.uploadResult <;> cases hg : env.generateResult <;>
        simp [generateFromImage, hp, hf, hu, hg]
    · intro call hc
      cases hu : env.uploadResult with
      | err m => simp [generateFromImage, hp, hf, hu] at hc
      | ok u =>
        cases hg : env.generateResult <;>
          simp [generateFromImage, hp, hf, hu, hg] at hc <;>
          exact ⟨Part.fileUri u.uri u.mimeType, by simp [hc, createUserContent]⟩
  · constructor
    · cases hl : fsLookup env.fs f.path <;> cases hg : env.generateResult <;>
        simp [generateFromDocument, hp, hf, hl, hg]
    · intro call hc
      cases hl : fsLookup env.fs f.path with
      | none => simp [generateFromDocument, hp, hf, hl] at hc
      | some buf =>
        cases hg : env.generateResult <;>
          simp [generateFromDocument, hp, hf, hl, hg] at hc <;>
          exact ⟨Part.inlineData ⟨b64encode buf⟩ f.mimetype,
            by simp [hc, createUserContent]⟩
  · constructor
    · cases hl : fsLookup env.fs f.path <;> cases hg : env.generateResult <;>
        simp [generateFromAudio, hp, hf, hl, hg]
    · intro call hc
      cases hl : fsLookup env.fs f.path with
      | none => simp [generateFromAudio, hp, hf, hl] at hc
      | some buf =>
        cases hg : env.generateResult <;>
          simp [generateFromAudio, hp, hf, hl, hg] at hc <;>
          exact ⟨Part.inlineData ⟨b64encode buf⟩ f.mimetype,
            by simp [hc, createUserContent]⟩

/-- C7 witness: a concrete promptless image request is not rejected and the
image default differs from the document default. -/
theorem C7_default_prompt_applied_witness :
    (generateFromImage ⟨none, some ⟨"uploads/img", "image/png"⟩⟩
        ⟨[("uploads/img", [1, 2])], .ok ⟨"files/r1", "image/png"⟩,
          .ok ⟨some "teks"⟩⟩).response.status ≠ 400 ∧
    imageDefaultPrompt ≠ documentDefaultPrompt :=
  ⟨(C7_default_prompt_applied ⟨none, some ⟨"uploads/img", "image/png"⟩⟩
      ⟨[("uploads/img", [1, 2])], .ok ⟨"files/r1", "image/png"⟩, .ok ⟨some "teks"⟩⟩
      ⟨"uploads/img", "image/png"⟩ rfl rfl).1.1,
   (C7_default_prompt_applied ⟨none, some ⟨"uploads/img", "image/png"⟩⟩
      ⟨[("uploads/img", [1, 2])], .ok ⟨"files/r1", "image/png"⟩, .ok ⟨some "teks"⟩⟩
      ⟨"uploads/img", "image/png"⟩ rfl rfl).2.2.2.1⟩

/-- C8: for every byte sequence, encoding it to base64 as the inline
strategy of the document and audio routes does and then decoding that
base64 string reproduces the original byte sequence exactly. -/
theorem C8_base64_roundtrip (bs : List Nat) (h : ∀ b ∈ bs, b < 256) :
    b64decode (b64encode bs) = some bs :=
  b64decode_b64encode bs h

/-- C8 witness: the round trip on the concrete byte sequence 72 97 108 111. -/
theorem C8_base64_roundtrip_witness :
    (∀ b ∈ [72, 97, 108, 111], b < 256) ∧
    b64decode (b64encode [72, 97, 108, 111]) = some [72, 97, 108, 111] :=
  ⟨by decide, C8_base64_roundtrip [72, 97, 108, 111] (by decide)⟩

/-- C9: on the media routes, a prompt field that is present but equal to
the empty string is not replaced by the route's default prompt and the
request is not rejected: the handler proceeds to the remote call with the
empty string as the text part — in contrast to the text route, where an
empty prompt is rejected with 400. -/
theorem C9_empty_prompt_not_defaulted (req : Request) (env : Env) (f : ReqFile)
    (hp : req.prompt = some "") (hf : req.file = some f) :
    (generateFromImage req env).response.status ≠ 400 ∧
    (generateFromDocument req env).response.status ≠ 400 ∧
    (generateFromAudio req env).response.status ≠ 400 ∧
    (∀ u, env.uploadResult = .ok u →
      (generateFromImage req env).generateCalls ≠ [] ∧
      ∀ call ∈ (generateFromImage req env).generateCalls,
        ∃ mp, call.contents = .list [⟨"user", [Part.text "", mp]⟩]) ∧
    (∀ buf, fsLookup env.fs f.path = some buf →
      (generateFromDocument req env).generateCalls ≠ [] ∧
      (generateFromAudio req env).generateCalls ≠ [] ∧
      (∀ call ∈ (generateFromDocument req env).generateCalls,
        ∃ mp, call.contents = .list [⟨"user", [Part.text "", mp]⟩]) ∧
      (∀ call ∈ (generateFromAudio req env).generateCalls,
        ∃ mp, call.contents = .list [⟨"user", [Part.text "", mp]⟩])) ∧
    (generateText req env).response.status = 400 := by
  refine ⟨?_, ?_, ?_, ?_, ?_, by simp [generateText, hp]⟩
  · cases hu : env.uploadResult <;> cases hg : env.generateResult <;>
      simp [generateFromImage, hp, hf, hu, hg]
  · cases hl : fsLookup env.fs f.path <;> cases hg : env.generateResult <;>
      simp [generateFromDocument, hp, hf, hl, hg]
  · cases hl : fsLookup env.fs f.path <;> cases hg : env.generateResult <;>
      simp [generateFromAudio, hp, hf, hl, hg]
  · intro u hu
    constructor
    · cases hg : env.generateResult <;> simp [generateFromImage, hp, hf, hu, hg]
    · intro call hc
      cases hg : env.generateResult <;>
        simp [generateFromImage, hp, hf, hu, hg] at hc <;>
        exact ⟨Part.fileUri u.uri u.mimeType, by simp [hc, createUserContent]⟩
  · intro buf hb
    refine ⟨?_, ?_, ?_, ?_⟩
    · cases hg : env.generateResult <;> simp [generateFromDocument, hp, hf, hb, hg]
    · cases hg : env.generateResult <;> simp [generateFromAudio, hp, hf, hb, hg]
    · intro call hc
      cases hg : env.generateResult <;>
        simp [generateFromDocument, hp, hf, hb, hg] at hc <;>
        exact ⟨Part.inlineData ⟨b64encode buf⟩ f.mimetype,
          by simp [hc, createUserContent]⟩
    · intro call hc
      cases hg : env.generateResult <;>
        simp [generateFromAudio, hp, hf, hb, hg] at hc <;>
        exact ⟨Part.inlineData ⟨b64encode buf⟩ f.mimetype,
          by simp [hc, createUserContent]⟩

/-- C9 witness: a concrete empty-prompt image request is not rejected and
reaches the generate call, while the same request on the text route is
answered 400. -/
theorem C9_empty_prompt_not_defaulted_witness :
    (generateFromImage ⟨some "", some ⟨"uploads/img", "image/png"⟩⟩
        ⟨[("uploads/img", [1, 2])], .ok ⟨"files/r1", "image/png"⟩,
          .ok ⟨some "teks"⟩⟩).response.status ≠ 400 ∧
    (generateFromDocument ⟨some "", some ⟨"uploads/img", "image/png"⟩⟩
        ⟨[("uploads/img", [1, 2])], .ok ⟨"files/r1", "image/png"⟩,
          .ok ⟨some "teks"⟩⟩).generateCalls ≠ [] ∧
    (generateText ⟨some "", some ⟨"uploads/img", "image/png"⟩⟩
        ⟨[("uploads/img", [1, 2])], .ok ⟨"files/r1", "image/png"⟩,
          .ok ⟨some "teks"⟩⟩).response.status = 400 :=
  ⟨(C9_empty_prompt_not_defaulted ⟨some "", some ⟨"uploads/img", "image/png"⟩⟩
      ⟨[("uploads/img", [1, 2])], .ok ⟨"files/r1", "image/png"⟩, .ok ⟨some "teks"⟩⟩
      ⟨"uploads/img", "image/png"⟩ rfl rfl).1,
   ((C9_empty_prompt_not_defaulted ⟨some "", some ⟨"uploads/img", "image/png"⟩⟩
      ⟨[("uploads/img", [1, 2])], .ok ⟨"files/r1", "image/png"⟩, .ok ⟨some "teks"⟩⟩
      ⟨"uploads/img", "image/png"⟩ rfl rfl).2.2.2.2.1 [1, 2] (by decide)).1,
   (C9_empty_prompt_not_defaulted ⟨some "", some ⟨"uploads/img", "image/png"⟩⟩
      ⟨[("uploads/img", [1, 2])], .ok ⟨"files/r1", "image/png"⟩, .ok ⟨some "teks"⟩⟩
      ⟨"uploads/img", "image/png"⟩ rfl rfl).2.2.2.2.2⟩

/-- C10: every handler writes exactly one HTTP response — captured by the
embedding returning a single response value, the early-return, success and
catch branches being mutually exclusive by construction — and for every
request to any of the four endpoints that response is either 200 with a
body keyed `output`, 400 with a body keyed `error`, or 500 with a body
keyed `error`. -/
theorem C10_single_response_shape (req : Request) (env : Env) :
    ((∃ t, (generateText req env).response = ⟨200, .output t⟩) ∨
     (∃ m, (generateText req env).response = ⟨400, .error m⟩) ∨
     (∃ m, (generateText req env).response = ⟨500, .error m⟩)) ∧
    ((∃ t, (generateFromImage req env).response = ⟨200, .output t⟩) ∨
     (∃ m, (generateFromImage req env).response = ⟨400, .error m⟩) ∨
     (∃ m, (generateFromImage req env).response = ⟨500, .error m⟩)) ∧
    ((∃ t, (generateFromDocument req env).response = ⟨200, .output t⟩) ∨
     (∃ m, (generateFromDocument req env).response = ⟨400, .error m⟩) ∨
     (∃ m, (generateFromDocument req env).response = ⟨500, .error m⟩)) ∧
    ((∃ t, (generateFromAudio req env).response = ⟨200, .output t⟩) ∨
     (∃ m, (generateFromAudio req env).response = ⟨400, .error m⟩) ∨
     (∃ m, (generateFromAudio req env).response = ⟨500, .error m⟩)) := by
  refine ⟨?_, ?_, ?_, ?_⟩
  · cases hp : req.prompt with
    | none => exact Or.inr (Or.inl ⟨"Prompt diperlukan.", by simp [generateText, hp]⟩)
    | some p =>
      by_cases hpe : p = ""
      · exact Or.inr (Or.inl ⟨"Prompt diperlukan.", by simp [generateText, hp, hpe]⟩)
      · cases hg : env.generateResult with
        | ok r => exact Or.inl ⟨r.text, by simp [generateText, hp, hpe, hg]⟩
        | err m => exact Or.inr (Or.inr ⟨m, by simp [generateText, hp, hpe, hg]⟩)
  · cases hf : req.file with
    | none =>
        exact Or.inr (Or.inl ⟨"File gambar diperlukan.", by simp [generateFromImage, hf]⟩)
    | some f =>
      cases hu : env.uploadResult with
      | err m => exact Or.inr (Or.inr ⟨m, by simp [generateFromImage, hf, hu]⟩)
      | ok u =>
        cases hg : env.generateResult with
        | ok r => exact Or.inl ⟨r.text, by simp [generateFromImage, hf, hu, hg]⟩
        | err m => exact Or.inr (Or.inr ⟨m, by simp [generateFromImage, hf, hu, hg]⟩)
  · cases hf : req.file with
    | none =>
        exact Or.inr (Or.inl ⟨"File dokumen diperlukan.",
          by simp [generateFromDocument, hf]⟩)
    | some f =>
      cases hl : fsLookup env.fs f.path with
      | none =>
          exact Or.inr (Or.inr ⟨"ENOENT: no such file or directory, open " ++ f.path,
            by simp [generateFromDocument, hf, hl]⟩)
      | some buf =>
        cases hg : env.generateResult with
        | ok r => exact Or.inl ⟨r.text, by simp [generateFromDocument, hf, hl, hg]⟩
        | err m => exact Or.inr (Or.inr ⟨m, by simp [generateFromDocument, hf, hl, hg]⟩)
  · cases hf : req.file with
    | none =>
        exact Or.inr (Or.inl ⟨"File audio diperlukan.", by simp [generateFromAudio, hf]⟩)
    | some f =>
      cases hl : fsLookup env.fs f.path with
      | none =>
          exact Or.inr (Or.inr ⟨"ENOENT: no such file or directory, open " ++ f.path,
            by simp [generateFromAudio, hf, hl]⟩)
      | some buf =>
        cases hg : env.generateResult with
        | ok r => exact Or.inl ⟨r.text, by simp [generateFromAudio, hf, hl, hg]⟩
        | err m => exact Or.inr (Or.inr ⟨m, by simp [generateFromAudio, hf, hl, hg]⟩)

end GeminiRelay
